import Mathlib

/-!
Verification of the DataBeez agricultural-climate pipeline (Senegal).

Shallow embedding of the Python source: pandas transformations become
functions on lists of records, numeric cell values become `Option ℚ`
(with `none` playing the role of NaN/None), database side effects become
explicit state passing, and Python exceptions become `Except`-style
outcomes.  Each definition mirrors one function of the repository; the
theorems settle the specification's claims about them.
-/

namespace DataBeez

/-! ## Rainfall categorisation

`AutomaticPredictor._categorize_rainfall` (src/models/real_time_data.py)
and the category mapping inside `RainfallPredictionModel.predict_rainfall`
(src/models/rainfall_prediction.py). Both apply the same cut points
1 / 5 / 15 mm to a predicted rainfall value. -/

/-- `_categorize_rainfall` from `src/models/real_time_data.py`. -/
def categorize_rainfall (value : ℚ) : String :=
  if value < 1 then "Pas de pluie"
  else if value < 5 then "Pluie légère"
  else if value < 15 then "Pluie modérée"
  else "Pluie forte"

/-- The category branch of `RainfallPredictionModel.predict_rainfall`
(`src/models/rainfall_prediction.py`), returning (category, risk_level). -/
def predict_rainfall_category (prediction : ℚ) : String × String :=
  if prediction < 1 then ("Pas de pluie", "Faible")
  else if prediction < 5 then ("Pluie légère", "Modéré")
  else if prediction < 15 then ("Pluie modérée", "Élevé")
  else ("Pluie forte", "Très élevé")

/-! ## Default weather season

`RealTimeDataProvider._get_default_weather` (src/models/real_time_data.py)
decides the season from the calendar month with the Python chained
comparison `11 <= current_month <= 4`. -/

/-- The season / base-value selection of `_get_default_weather`
(`src/models/real_time_data.py`): `if 11 <= current_month <= 4` picks the
dry-season constants, otherwise the wet-season constants.  Returns
(season, temp_base, humidity_base). -/
def get_default_weather_season (current_month : ℤ) : String × ℚ × ℚ :=
  if 11 ≤ current_month ∧ current_month ≤ 4 then ("Dry", 28, 45)
  else ("Wet", 26, 75)

/-! ## Weather cleaning

`clean_weather_data` (src/etl/transform_weather.py): drop full-row
duplicates, drop rows with a missing essential field (date, temperature,
humidite), coerce the numeric columns with `pd.to_numeric(errors="coerce")`
and keep only rows with humidite in [0,100] and temperature in [-80,60]. -/

/-- A raw pandas cell: a numeric value, a non-numeric text value, or
NaN/missing. -/
inductive RawVal
  | num (q : ℚ)
  | str (s : String)
  | null
deriving DecidableEq, Repr

/-- `pd.to_numeric(x, errors="coerce")` on one cell: numbers stay, text
that does not parse as a number becomes NaN.  (Parseable numeric text is
represented as `num` directly.) -/
def toNumericCell : RawVal → RawVal
  | .num q => .num q
  | .str _ => .null
  | .null => .null

/-- Whether a cell is missing (NaN), as seen by `dropna`. -/
def RawVal.isNull : RawVal → Bool
  | .null => true
  | _ => false

/-- `Series.between(lo, hi)` on one cell: inclusive bounds, False on NaN
and on non-numeric cells. -/
def betweenCell (v : RawVal) (lo hi : ℚ) : Bool :=
  match v with
  | .num q => decide (lo ≤ q ∧ q ≤ hi)
  | _ => false

/-- One row of the raw weather CSV produced by `extract_weather_data`
(columns per src/etl/load_weather.py: ville, type, date, temperature,
humidite, pression, vent, pluie, description). -/
structure WeatherRow where
  ville : RawVal
  rtype : RawVal
  date : RawVal
  temperature : RawVal
  humidite : RawVal
  pression : RawVal
  vent : RawVal
  pluie : RawVal
  description : RawVal
deriving DecidableEq, Repr

/-- Helper for `dedupKeepFirst`: `seen` is the list of rows already kept;
a row equal to a kept row is skipped, otherwise it is kept and recorded. -/
def dedupKeepFirstAux {α : Type} [DecidableEq α] (seen : List α) : List α → List α
  | [] => []
  | a :: rest =>
      if a ∈ seen then dedupKeepFirstAux seen rest
      else a :: dedupKeepFirstAux (a :: seen) rest

/-- `df.drop_duplicates()`: remove rows equal to an earlier row on all
columns, keeping the first occurrence. -/
def dedupKeepFirst {α : Type} [DecidableEq α] (l : List α) : List α :=
  dedupKeepFirstAux [] l

/-- The `pd.to_numeric` pass of `clean_weather_data` applied to the five
numeric columns of one row. -/
def coerceNumericCols (r : WeatherRow) : WeatherRow :=
  { r with
    temperature := toNumericCell r.temperature
    humidite := toNumericCell r.humidite
    pression := toNumericCell r.pression
    vent := toNumericCell r.vent
    pluie := toNumericCell r.pluie }

/-- `clean_weather_data` from `src/etl/transform_weather.py`:
drop_duplicates, dropna on (date, temperature, humidite), to_numeric on
the numeric columns, then keep rows with humidite.between(0,100) and
temperature.between(-80,60). -/
def clean_weather_data (rows : List WeatherRow) : List WeatherRow :=
  let d1 := dedupKeepFirst rows
  let d2 := d1.filter fun r =>
    !r.date.isNull && !r.temperature.isNull && !r.humidite.isNull
  let d3 := d2.map coerceNumericCols
  d3.filter fun r => betweenCell r.humidite 0 100 && betweenCell r.temperature (-80) 60

/-- Concrete raw row: Dakar current reading at midnight, in-range values,
description "ciel dégagé". -/
def exRow1 : WeatherRow :=
  { ville := .str "Dakar", rtype := .str "current", date := .str "2024-01-01 00:00"
    temperature := .num 25, humidite := .num 50, pression := .num 1012
    vent := .num 3, pluie := .num 0, description := .str "ciel dégagé" }

/-- Concrete raw row: same identity key (ville, type, date) as `exRow1`
but a different description, so it is not a full-row duplicate. -/
def exRow2 : WeatherRow :=
  { exRow1 with description := .str "nuageux" }

/-- Concrete raw row: same city three hours later with an out-of-range
humidity of 150 %. -/
def exRow3 : WeatherRow :=
  { ville := .str "Dakar", rtype := .str "current", date := .str "2024-01-01 03:00"
    temperature := .num 26, humidite := .num 150, pression := .num 1011
    vent := .num 4, pluie := .num 0, description := .str "humide" }

/-! ## Satellite (GEE) consolidation

`transform_gee_data` (src/etl/transform_gee_data.py, lines 52-62):
`groupby(["region","date","latitude","longitude"], as_index=False).first()`
followed by `drop_duplicates(subset=["region","date"])`,
`dropna(subset=["region","date"])` and `sort_values(by=["region","date"])`.
Pandas groupby drops rows whose group keys are missing, sorts the groups
by key, and `.first()` takes the first non-null value of each column
within the group in input order. -/

/-- One row of the GEE CSV: the four grouping keys plus the numeric data
columns (`vals`, in a fixed column order), each cell possibly missing. -/
structure GeeRow where
  region : Option String
  date : Option String
  latitude : Option ℚ
  longitude : Option ℚ
  vals : List (Option ℚ)
deriving DecidableEq, Repr

/-- The groupby key of a row; `none` when any key cell is missing (pandas
groupby excludes such rows). -/
def geeKey (r : GeeRow) : Option (String × String × ℚ × ℚ) :=
  match r.region, r.date, r.latitude, r.longitude with
  | some a, some b, some c, some d => some (a, b, c, d)
  | _, _, _, _ => none

/-- First non-null value of a column, in order (`GroupBy.first`). -/
def firstSome : List (Option ℚ) → Option ℚ
  | [] => none
  | some q :: _ => some q
  | none :: rest => firstSome rest

/-- Variant of `dedupKeepFirstAux` that deduplicates on a projection
(`drop_duplicates(subset=...)`, keeping the first occurrence). -/
def dedupByKeepFirstAux {α β : Type} [DecidableEq β] (f : α → β)
    (seen : List β) : List α → List α
  | [] => []
  | a :: rest =>
      if f a ∈ seen then dedupByKeepFirstAux f seen rest
      else a :: dedupByKeepFirstAux f (f a :: seen) rest

/-- `df.drop_duplicates(subset=...)` keyed by `f`. -/
def dedupByKeepFirst {α β : Type} [DecidableEq β] (f : α → β) (l : List α) :
    List α :=
  dedupByKeepFirstAux f [] l

/-- Insert into a sorted list, before the first element not `le`-below the
inserted one (stable insertion sort step). -/
def insertSorted {α : Type} (le : α → α → Bool) (a : α) : List α → List α
  | [] => [a]
  | b :: rest => if le a b then a :: b :: rest else b :: insertSorted le a rest

/-- Sort by the comparator `le` (stable insertion sort; pandas key sorts
here have no ties, so stability and algorithm choice are immaterial). -/
def sortBy {α : Type} (le : α → α → Bool) (l : List α) : List α :=
  l.foldr (insertSorted le) []

/-- Lexicographic order on the 4-part groupby key. -/
def geeKeyLe (a b : String × String × ℚ × ℚ) : Bool :=
  if a.1 ≠ b.1 then decide (a.1 < b.1)
  else if a.2.1 ≠ b.2.1 then decide (a.2.1 < b.2.1)
  else if a.2.2.1 ≠ b.2.2.1 then decide (a.2.2.1 < b.2.2.1)
  else decide (a.2.2.2 ≤ b.2.2.2)

/-- Order on consolidated rows for `sort_values(by=["region","date"])`
(keys are non-missing at that point). -/
def geeRowLe (a b : GeeRow) : Bool :=
  if a.region.getD "" ≠ b.region.getD "" then decide (a.region.getD "" < b.region.getD "")
  else decide (a.date.getD "" ≤ b.date.getD "")

/-- The aggregated row `.first()` produces for group key `k`: the key
cells, and per column the first non-null value among the rows of the
group, in input order.  `ncols` is the number of data columns. -/
def mkAggGeeRow (rows : List GeeRow) (ncols : ℕ)
    (k : String × String × ℚ × ℚ) : GeeRow :=
  let gs := rows.filter fun r => geeKey r = some k
  { region := some k.1, date := some k.2.1
    latitude := some k.2.2.1, longitude := some k.2.2.2
    vals := (List.range ncols).map fun i => firstSome (gs.map fun r => r.vals.getD i none) }

/-- The consolidation steps of `transform_gee_data`
(src/etl/transform_gee_data.py lines 52-62): groupby on the four keys with
first-non-null aggregation (groups sorted by key, rows with a missing key
dropped), then drop_duplicates on (region, date) keeping the first row,
dropna on (region, date), and a final sort by (region, date). -/
def transform_gee_consolidate (ncols : ℕ) (rows : List GeeRow) : List GeeRow :=
  let keys := sortBy geeKeyLe (dedupKeepFirst (rows.filterMap geeKey))
  let grouped := keys.map (mkAggGeeRow rows ncols)
  let deduped := dedupByKeepFirst (fun r => (r.region, r.date)) grouped
  let dropped := deduped.filter fun r => r.region.isSome && r.date.isSome
  sortBy geeRowLe dropped

/-- Concrete GEE row: Dakar 2024-01-01, temperature column 30, second
data column 5. -/
def geeRow1 : GeeRow :=
  { region := some "Dakar", date := some "2024-01-01"
    latitude := some 14, longitude := some 17
    vals := [some 30, some 5] }

/-- Concrete GEE row: identical to `geeRow1` except for the temperature
column (31 instead of 30) — a conflicting same-day second pass. -/
def geeRow2 : GeeRow :=
  { geeRow1 with vals := [some 31, some 5] }

/-! ## Database loaders

`load_weather_data` (src/etl/load_weather.py) and `load_gee_data`
(src/etl/load_gee_data.py): CREATE TABLE IF NOT EXISTS with a fixed
schema, then batch INSERT of every CSV row, then commit.  The table state
is `none` when the table does not exist yet.  Neither function issues any
TRUNCATE / DELETE / DROP. -/

/-- `load_weather_data` data effect (src/etl/load_weather.py lines 30-63):
create the `meteo_data` table if absent, then insert all rows of the
cleaned CSV; returns the committed table contents. -/
def load_weather_data (csv : List WeatherRow) (meteo_data : Option (List WeatherRow)) :
    List WeatherRow :=
  let table := meteo_data.getD []
  table ++ csv

/-- `load_gee_data` data effect (src/etl/load_gee_data.py lines 16-120):
raise ValueError on an empty CSV, else create the `gee_data` table if
absent and insert all rows; returns the committed table contents. -/
def load_gee_data (csv : List GeeRow) (gee_data : Option (List GeeRow)) :
    Except String (List GeeRow) :=
  if csv.isEmpty then
    .error "Le fichier GEE est vide — aucune donnée à charger."
  else
    .ok (gee_data.getD [] ++ csv)

/-! ## Loader error handling

The try/except/finally of `load_weather_data` (src/etl/load_weather.py
lines 18-74); `load_gee_data` (src/etl/load_gee_data.py lines 27-130) has
the identical structure around its connect/execute/commit calls.  Python
semantics modelled explicitly: the locals `conn` and `cur` are bound only
once their assignment statement succeeds; the `except` block runs
`conn.rollback()` and then re-raises; the `finally` block runs
`cur.close(); conn.close()`; referencing an unbound local raises
UnboundLocalError; an exception raised inside `except` or `finally`
replaces the in-flight one. -/

/-- What propagates out of a loader run. -/
inductive LoaderErr
  | dbError
  | unboundLocalError
deriving DecidableEq, Repr

/-- Failure injection: which database calls succeed during the run. -/
structure DbBehavior where
  connect_ok : Bool
  cursor_ok : Bool
  execute_ok : Bool
  commit_ok : Bool
deriving DecidableEq, Repr

/-- Observable loader state: which locals are bound, and what the
transaction/cleanup calls did. -/
structure PyLoaderState where
  conn_bound : Bool
  cur_bound : Bool
  rolled_back : Bool
  cursor_closed : Bool
  conn_closed : Bool
deriving DecidableEq, Repr

/-- State at function entry: no local bound, nothing done. -/
def loaderInit : PyLoaderState :=
  { conn_bound := false, cur_bound := false, rolled_back := false
    cursor_closed := false, conn_closed := false }

/-- The `try` body: `conn = psycopg2.connect(...)`, `cur = conn.cursor()`,
`cur.execute(CREATE TABLE ...)`, `cur.executemany(INSERT ...)`,
`conn.commit()` — stopping at the first failing call, which leaves the
not-yet-assigned locals unbound. -/
def loaderTryBody (b : DbBehavior) : PyLoaderState × Option LoaderErr :=
  if !b.connect_ok then (loaderInit, some .dbError)
  else
    let s1 := { loaderInit with conn_bound := true }
    if !b.cursor_ok then (s1, some .dbError)
    else
      let s2 := { s1 with cur_bound := true }
      if !b.execute_ok then (s2, some .dbError)
      else if !b.commit_ok then (s2, some .dbError)
      else (s2, none)

/-- The `except` block: `conn.rollback(); raise`.  With `conn` unbound the
rollback call itself raises UnboundLocalError, which replaces the original
exception. -/
def loaderExcept (s : PyLoaderState) (e : LoaderErr) : PyLoaderState × LoaderErr :=
  if s.conn_bound then ({ s with rolled_back := true }, e)
  else (s, .unboundLocalError)

/-- The `finally` block: `cur.close(); conn.close()`.  With `cur` unbound
the first call raises UnboundLocalError (replacing any in-flight
exception) and `conn.close()` is never reached. -/
def loaderFinally (s : PyLoaderState) (pending : Option LoaderErr) :
    PyLoaderState × Option LoaderErr :=
  if s.cur_bound then
    ({ s with cursor_closed := true, conn_closed := true }, pending)
  else (s, some .unboundLocalError)

/-- One run of the loader error-handling skeleton: try body, then on
exception the except block, then always the finally block. -/
def load_weather_run (b : DbBehavior) : PyLoaderState × Option LoaderErr :=
  match loaderTryBody b with
  | (s, none) => loaderFinally s none
  | (s, some e) =>
      let (s2, e2) := loaderExcept s e
      loaderFinally s2 (some e2)

/-! ## Training-time scaler fit

`BaseModel.train` (src/models/base_model.py lines 84-103) calls
`preprocess_data(X, y, fit_scaler=True)` — which runs
`X.fillna(X.mean())` and then `self.scaler.fit_transform` — on the whole
feature frame, and only afterwards splits the result with
`train_test_split(..., test_size=0.2, random_state=42)`.  The embedding
tracks a one-feature frame; the sklearn shuffle is abstracted as an
arbitrary split function, and the rows handed to the split are carried
pre-scaling (standardisation is a per-row bijection, so the row partition
is unaffected). -/

/-- Mean of a list of rationals (`Series.mean` on complete data). -/
def listMean (xs : List ℚ) : ℚ := xs.sum / xs.length

/-- Column mean ignoring missing values (`X.mean()`). -/
def colMean (xs : List (Option ℚ)) : ℚ := listMean (xs.filterMap id)

/-- `X.fillna(X.mean())` for one feature column. -/
def fillnaMean (xs : List (Option ℚ)) : List ℚ :=
  xs.map fun x => x.getD (colMean xs)

/-- A fitted `StandardScaler`: the data it was fitted on and the mean it
recorded (the statistics that standardisation uses). -/
structure ScalerFit where
  fitData : List ℚ
  mean : ℚ
deriving DecidableEq, Repr

/-- `StandardScaler.fit` on a one-feature frame. -/
def standardScaler_fit (xs : List ℚ) : ScalerFit := ⟨xs, listMean xs⟩

/-- The facts of one `BaseModel.train` run relevant to the scaler claim. -/
structure TrainRun where
  scaler : ScalerFit
  trainRows : List ℚ
  testRows : List ℚ
deriving DecidableEq, Repr

/-- `BaseModel.train` (src/models/base_model.py lines 84-103), one-feature
frame: preprocess (fillna + scaler fit) on ALL of X, then split the
processed rows into the 80 % training and 20 % test parts with the
sklearn shuffle abstracted as `split`. -/
def BaseModel.train (split : List ℚ → List ℚ × List ℚ) (X : List (Option ℚ)) :
    TrainRun :=
  let Xclean := fillnaMean X
  let scaler := standardScaler_fit Xclean
  let parts := split Xclean
  { scaler := scaler, trainRows := parts.1, testRows := parts.2 }

/-- The deterministic 80/20 split used to instantiate the abstract sklearn
shuffle on a 5-row frame: first four rows train, last row test. -/
def splitFirst4 (xs : List ℚ) : List ℚ × List ℚ := (xs.take 4, xs.drop 4)

/-- The 5-row single-feature dataset [0,0,0,0,10] used to separate the
full-data mean from every possible 4-row training-split mean. -/
def leakX5 : List (Option ℚ) := [some 0, some 0, some 0, some 0, some 10]

/-! ## Inference feature-vector assembly

`prepare_features_for_model` (src/models/streamlit_app.py): build the
`all_features` dictionary from the runtime input (its values include
floating-point trigonometry, so the dictionary is taken as a parameter
here), then walk the artifact feature-name list in order, taking the value
from `all_features` when the name is present and 0.0 with a logged warning
otherwise, and emit the one-row frame `pd.DataFrame([model_features])`.
When the model has no saved (or an empty) feature-name list the function
errors out and returns None instead. -/

/-- Python dict assignment `d[k] = v`: overwrite in place when the key
exists, append otherwise (insertion order preserved). -/
def pyDictInsert (d : List (String × ℚ)) (k : String) (v : ℚ) :
    List (String × ℚ) :=
  if k ∈ d.map Prod.fst then
    d.map fun p => if p.1 = k then (k, v) else p
  else d ++ [(k, v)]

/-- The selection loop of `prepare_features_for_model`
(src/models/streamlit_app.py lines 166-176): for each saved feature name
in order, take its `all_features` value or default to 0.0 with a warning;
returns (one-row frame as an ordered column/value list, warned names). -/
def select_model_features (all_features : List (String × ℚ))
    (feature_names : List String) : List (String × ℚ) × List String :=
  feature_names.foldl
    (fun acc n =>
      match all_features.lookup n with
      | some v => (pyDictInsert acc.1 n v, acc.2)
      | none => (pyDictInsert acc.1 n 0, acc.2 ++ [n]))
    ([], [])

/-- `prepare_features_for_model` (src/models/streamlit_app.py): None when
the model has no saved feature names or an empty list (falsy check), else
the selected one-row frame with its warnings. -/
def prepare_features_for_model (feature_names : Option (List String))
    (all_features : List (String × ℚ)) :
    Option (List (String × ℚ) × List String) :=
  match feature_names with
  | none => none
  | some F => if F.isEmpty then none else some (select_model_features all_features F)

/-! ## BaseModel guard clauses and artifact loading

`BaseModel` (src/models/base_model.py): `predict` and `save_model` refuse
to run on an untrained model; `load_model` refuses to load unless all
three artifact files (estimator, scaler, feature-name list) exist.
Estimator and scaler objects are represented by natural-number artifact
identifiers; the on-disk joblib files by optional slots. -/

/-- A raised Python exception, by class and message. -/
inductive PyError
  | valueError (msg : String)
  | fileNotFoundError (msg : String)
deriving DecidableEq, Repr

/-- The mutable attributes of a `BaseModel` instance
(src/models/base_model.py `__init__`). -/
structure BaseModelState where
  model_name : String
  model : Option ℕ
  scaler : ℕ
  feature_names : Option (List String)
  is_trained : Bool
deriving DecidableEq, Repr

/-- The three joblib artifact files `save_model`/`load_model` use
(estimator, scaler, feature-name list); `none` means the file is absent. -/
structure SavedFiles where
  model_file : Option ℕ
  scaler_file : Option ℕ
  features_file : Option (List String)
deriving DecidableEq, Repr

/-- `BaseModel.predict` guard (src/models/base_model.py): raise ValueError
when the model is untrained, otherwise proceed; the instance attributes are
returned alongside the outcome (predict never reassigns them). -/
def BaseModel.predict (bm : BaseModelState) : Option PyError × BaseModelState :=
  if bm.is_trained then (none, bm)
  else (some (.valueError "Le modèle doit être entraîné avant de faire des prédictions"), bm)

/-- `BaseModel.save_model` (src/models/base_model.py): raise ValueError on
an untrained model, otherwise dump estimator, scaler and feature names to
the three artifact files. -/
def BaseModel.save_model (bm : BaseModelState) (fs : SavedFiles) :
    Option PyError × BaseModelState × SavedFiles :=
  if bm.is_trained then
    (none, bm,
      { model_file := bm.model, scaler_file := some bm.scaler
        features_file := bm.feature_names })
  else
    (some (.valueError "Le modèle doit être entraîné avant d'être sauvegardé"), bm, fs)

/-- `BaseModel.load_model` (src/models/base_model.py): if any of the three
artifact files is missing, raise FileNotFoundError and leave the instance
untouched; otherwise load all three and set is_trained. -/
def BaseModel.load_model (bm : BaseModelState) (fs : SavedFiles) :
    Option PyError × BaseModelState :=
  match fs.model_file, fs.scaler_file, fs.features_file with
  | some m, some s, some f =>
      (none, { bm with model := some m, scaler := s
                       feature_names := some f, is_trained := true })
  | _, _, _ =>
      (some (.fileNotFoundError
        ("Fichiers du modèle non trouvés dans models/saved/" ++ bm.model_name)), bm)

end DataBeez

namespace DataBeez

/-- C7: the rainfall categorizer maps v < 1 to "no rain", 1 ≤ v < 5 to
"light", 5 ≤ v < 15 to "moderate" and v ≥ 15 to "heavy"; both code sites
agree, and the boundary values 1.0, 5.0, 15.0 fall in "light", "moderate"
and "heavy" respectively, with both sides of each boundary respecting the
cut points. -/
theorem categorize_rainfall_buckets :
    (∀ v : ℚ, v < 1 → categorize_rainfall v = "Pas de pluie") ∧
    (∀ v : ℚ, 1 ≤ v → v < 5 → categorize_rainfall v = "Pluie légère") ∧
    (∀ v : ℚ, 5 ≤ v → v < 15 → categorize_rainfall v = "Pluie modérée") ∧
    (∀ v : ℚ, 15 ≤ v → categorize_rainfall v = "Pluie forte") ∧
    (∀ v : ℚ, (predict_rainfall_category v).1 = categorize_rainfall v) ∧
    categorize_rainfall 1 = "Pluie légère" ∧
    categorize_rainfall 5 = "Pluie modérée" ∧
    categorize_rainfall 15 = "Pluie forte" ∧
    categorize_rainfall (1 - 1/2) = "Pas de pluie" ∧
    categorize_rainfall (5 - 1/2) = "Pluie légère" ∧
    categorize_rainfall (15 - 1/2) = "Pluie modérée" := by
  refine ⟨?_, ?_, ?_, ?_, ?_, by norm_num [categorize_rainfall],
    by norm_num [categorize_rainfall], by norm_num [categorize_rainfall],
    by norm_num [categorize_rainfall], by norm_num [categorize_rainfall],
    by norm_num [categorize_rainfall]⟩
  · intro v hv
    simp [categorize_rainfall, hv]
  · intro v h1 h5
    simp [categorize_rainfall, not_lt.mpr h1, h5]
  · intro v h5 h15
    simp [categorize_rainfall, not_lt.mpr (by linarith : (1:ℚ) ≤ v),
      not_lt.mpr h5, h15]
  · intro v h15
    simp [categorize_rainfall, not_lt.mpr (by linarith : (1:ℚ) ≤ v),
      not_lt.mpr (by linarith : (5:ℚ) ≤ v), not_lt.mpr h15]
  · intro v
    unfold predict_rainfall_category categorize_rainfall
    split_ifs <;> rfl

/-- Witness for C7: the bucket implications hold at concrete inputs. -/
theorem categorize_rainfall_buckets_witness :
    categorize_rainfall (1/2) = "Pas de pluie" ∧
    categorize_rainfall 3 = "Pluie légère" ∧
    categorize_rainfall 7 = "Pluie modérée" ∧
    categorize_rainfall 20 = "Pluie forte" :=
  ⟨categorize_rainfall_buckets.1 (1/2) (by norm_num),
   categorize_rainfall_buckets.2.1 3 (by norm_num) (by norm_num),
   categorize_rainfall_buckets.2.2.1 7 (by norm_num) (by norm_num),
   categorize_rainfall_buckets.2.2.2.1 20 (by norm_num)⟩

/-- C9: for every calendar month 1..12, `_get_default_weather` returns
season "Wet" with temp_base 26 and humidity_base 75; the dry-season branch
guarded by `11 <= current_month <= 4` is unreachable because no integer is
both ≥ 11 and ≤ 4. -/
theorem get_default_weather_always_wet (m : ℤ) (h1 : 1 ≤ m) (h12 : m ≤ 12) :
    get_default_weather_season m = ("Wet", 26, 75) ∧
    ¬ (11 ≤ m ∧ m ≤ 4) := by
  have hguard : ¬ (11 ≤ m ∧ m ≤ 4) := by
    rintro ⟨ha, hb⟩; linarith
  exact ⟨by simp [get_default_weather_season, hguard], hguard⟩

/-- Witness for C9: month 2 (inside the intended dry season) still yields
the wet-season constants. -/
theorem get_default_weather_always_wet_witness :
    get_default_weather_season 2 = ("Wet", 26, 75) :=
  (get_default_weather_always_wet 2 (by norm_num) (by norm_num)).1

/-! ### Helper lemmas on `dedupKeepFirst` -/

theorem mem_dedupKeepFirstAux {α : Type} [DecidableEq α] :
    ∀ (l seen : List α) (x : α),
      x ∈ dedupKeepFirstAux seen l ↔ x ∈ l ∧ x ∉ seen := by
  intro l
  induction l with
  | nil => intro seen x; simp [dedupKeepFirstAux]
  | cons a rest ih =>
      intro seen x
      by_cases ha : a ∈ seen
      · rw [dedupKeepFirstAux, if_pos ha]
        constructor
        · intro hx
          obtain ⟨h1, h2⟩ := (ih seen x).mp hx
          exact ⟨List.mem_cons_of_mem _ h1, h2⟩
        · rintro ⟨hx, hs⟩
          rcases List.mem_cons.mp hx with rfl | hx
          · exact absurd ha hs
          · exact (ih seen x).mpr ⟨hx, hs⟩
      · rw [dedupKeepFirstAux, if_neg ha]
        constructor
        · intro hx
          rcases List.mem_cons.mp hx with rfl | hx
          · exact ⟨List.mem_cons_self _ _, ha⟩
          · obtain ⟨h1, h2⟩ := (ih (a :: seen) x).mp hx
            exact ⟨List.mem_cons_of_mem _ h1,
              fun hs => h2 (List.mem_cons_of_mem _ hs)⟩
        · rintro ⟨hx, hs⟩
          rcases List.mem_cons.mp hx with rfl | hx
          · exact List.mem_cons_self _ _
          · by_cases hxa : x = a
            · subst hxa; exact List.mem_cons_self _ _
            · refine List.mem_cons_of_mem _ ((ih (a :: seen) x).mpr ⟨hx, ?_⟩)
              intro hmem
              rcases List.mem_cons.mp hmem with h | h
              · exact hxa h
              · exact hs h

theorem nodup_dedupKeepFirstAux {α : Type} [DecidableEq α] :
    ∀ (l seen : List α), (dedupKeepFirstAux seen l).Nodup := by
  intro l
  induction l with
  | nil => intro seen; simp [dedupKeepFirstAux]
  | cons a rest ih =>
      intro seen
      by_cases ha : a ∈ seen
      · rw [dedupKeepFirstAux, if_pos ha]; exact ih seen
      · rw [dedupKeepFirstAux, if_neg ha]
        refine List.nodup_cons.mpr ⟨?_, ih (a :: seen)⟩
        intro hmem
        exact ((mem_dedupKeepFirstAux rest (a :: seen) a).mp hmem).2
          (List.mem_cons_self a seen)

theorem sublist_dedupKeepFirstAux {α : Type} [DecidableEq α] :
    ∀ (l seen : List α), List.Sublist (dedupKeepFirstAux seen l) l := by
  intro l
  induction l with
  | nil => intro seen; simp [dedupKeepFirstAux]
  | cons a rest ih =>
      intro seen
      by_cases ha : a ∈ seen
      · rw [dedupKeepFirstAux, if_pos ha]
        exact List.Sublist.trans (ih seen) (List.sublist_cons_self a rest)
      · rw [dedupKeepFirstAux, if_neg ha]
        exact List.Sublist.cons₂ a (ih (a :: seen))

theorem mem_dedupKeepFirst {α : Type} [DecidableEq α] (l : List α) (x : α) :
    x ∈ dedupKeepFirst l ↔ x ∈ l := by
  simp [dedupKeepFirst, mem_dedupKeepFirstAux]

/-! ### Helper lemmas on sorting and keyed deduplication -/

theorem mem_insertSorted {α : Type} (le : α → α → Bool) (a x : α) :
    ∀ l : List α, x ∈ insertSorted le a l ↔ x = a ∨ x ∈ l := by
  intro l
  induction l with
  | nil => simp [insertSorted]
  | cons b rest ih =>
      by_cases h : le a b
      · simp [insertSorted, h]
      · simp only [insertSorted, h, Bool.false_eq_true, if_false, List.mem_cons, ih]
        tauto

theorem mem_sortBy {α : Type} (le : α → α → Bool) (x : α) :
    ∀ l : List α, x ∈ sortBy le l ↔ x ∈ l := by
  intro l
  induction l with
  | nil => simp [sortBy]
  | cons b rest ih =>
      rw [show sortBy le (b :: rest) = insertSorted le b (sortBy le rest) from rfl,
        mem_insertSorted]
      simp only [List.mem_cons, ih]

theorem mem_dedupByKeepFirstAux {α β : Type} [DecidableEq β] (f : α → β) :
    ∀ (l : List α) (seen : List β) (x : α),
      x ∈ dedupByKeepFirstAux f seen l → x ∈ l ∧ f x ∉ seen := by
  intro l
  induction l with
  | nil => intro seen x hx; simp [dedupByKeepFirstAux] at hx
  | cons a rest ih =>
      intro seen x hx
      by_cases ha : f a ∈ seen
      · rw [dedupByKeepFirstAux, if_pos ha] at hx
        obtain ⟨h1, h2⟩ := ih seen x hx
        exact ⟨List.mem_cons_of_mem _ h1, h2⟩
      · rw [dedupByKeepFirstAux, if_neg ha] at hx
        rcases List.mem_cons.mp hx with rfl | hx
        · exact ⟨List.mem_cons_self _ _, ha⟩
        · obtain ⟨h1, h2⟩ := ih (f a :: seen) x hx
          exact ⟨List.mem_cons_of_mem _ h1,
            fun hs => h2 (List.mem_cons_of_mem _ hs)⟩

theorem pairwise_dedupByKeepFirstAux {α β : Type} [DecidableEq β] (f : α → β) :
    ∀ (l : List α) (seen : List β),
      List.Pairwise (fun x y => f x ≠ f y) (dedupByKeepFirstAux f seen l) := by
  intro l
  induction l with
  | nil => intro seen; simp [dedupByKeepFirstAux]
  | cons a rest ih =>
      intro seen
      by_cases ha : f a ∈ seen
      · rw [dedupByKeepFirstAux, if_pos ha]; exact ih seen
      · rw [dedupByKeepFirstAux, if_neg ha]
        refine List.Pairwise.cons ?_ (ih (f a :: seen))
        intro y hy he
        exact (mem_dedupByKeepFirstAux f rest (f a :: seen) y hy).2
          (he ▸ List.mem_cons_self (f a) seen)

/-! ### Weather cleaning claims -/

/-- Helper: a cell passing `betweenCell lo hi` is a numeric value in
[lo, hi]. -/
theorem betweenCell_eq_true {v : RawVal} {lo hi : ℚ}
    (h : betweenCell v lo hi = true) :
    ∃ q : ℚ, v = .num q ∧ lo ≤ q ∧ q ≤ hi := by
  cases v with
  | num q =>
      refine ⟨q, rfl, ?_⟩
      simpa [betweenCell] using h
  | str s => simp [betweenCell] at h
  | null => simp [betweenCell] at h

/-- C6: every row of `clean_weather_data`'s output has humidity in [0,100]
and temperature in [-80,60], and is the numeric coercion of an input row —
out-of-range rows are dropped entirely, never clipped. -/
theorem clean_weather_range_invariant (rows : List WeatherRow)
    (r : WeatherRow) (hr : r ∈ clean_weather_data rows) :
    (∃ q : ℚ, r.humidite = .num q ∧ 0 ≤ q ∧ q ≤ 100) ∧
    (∃ t : ℚ, r.temperature = .num t ∧ -80 ≤ t ∧ t ≤ 60) ∧
    ∃ r0, r0 ∈ rows ∧ r = coerceNumericCols r0 := by
  unfold clean_weather_data at hr
  obtain ⟨hr3, hrange⟩ := List.mem_filter.mp hr
  obtain ⟨hhum, htemp⟩ := Bool.and_eq_true_iff.mp hrange
  obtain ⟨r2, hr2, hco⟩ := List.mem_map.mp hr3
  obtain ⟨hr1, -⟩ := List.mem_filter.mp hr2
  exact ⟨betweenCell_eq_true hhum, betweenCell_eq_true htemp,
    r2, (mem_dedupKeepFirst rows r2).mp hr1, hco.symm⟩

/-- Witness for C6: the single in-range row `exRow1` survives cleaning and
satisfies the range invariant. -/
theorem clean_weather_range_invariant_witness :
    (∃ q : ℚ, (coerceNumericCols exRow1).humidite = .num q ∧ 0 ≤ q ∧ q ≤ 100) ∧
    (∃ t : ℚ, (coerceNumericCols exRow1).temperature = .num t ∧ -80 ≤ t ∧ t ≤ 60) ∧
    ∃ r0, r0 ∈ [exRow1] ∧ coerceNumericCols exRow1 = coerceNumericCols r0 :=
  clean_weather_range_invariant [exRow1] (coerceNumericCols exRow1) (by decide)

/-- C4 counterexample: a 3-row raw weather CSV for one city with one
out-of-range humidity (150 %) and one duplicate identity key
(ville, type, date) — the duplicate differs only in its description, so
`clean_weather_data` keeps both copies and outputs 2 rows, not 1:
deduplication is on full rows, not on the identity key. -/
theorem clean_weather_identity_dedup_counterexample :
    exRow1.ville = exRow2.ville ∧ exRow1.rtype = exRow2.rtype ∧
    exRow1.date = exRow2.date ∧ exRow1 ≠ exRow2 ∧
    betweenCell exRow3.humidite 0 100 = false ∧
    (clean_weather_data [exRow1, exRow2, exRow3]).length = 2 := by
  refine ⟨rfl, rfl, rfl, by decide, by decide, by decide⟩

/-- C4 amended: `clean_weather_data` deduplicates on full-row equality
(keeping the first occurrence), not on the identity key; the 3-row
scenario outputs exactly 1 row when the duplicate-timestamp row is an
exact copy of the first row. -/
theorem clean_weather_full_row_dedup :
    (∀ l : List WeatherRow,
      (dedupKeepFirst l).Nodup ∧ List.Sublist (dedupKeepFirst l) l ∧
      (∀ x, x ∈ dedupKeepFirst l ↔ x ∈ l) ∧
      (dedupKeepFirst l).head? = l.head?) ∧
    clean_weather_data [exRow1, exRow1, exRow3] = [coerceNumericCols exRow1] := by
  constructor
  · intro l
    refine ⟨nodup_dedupKeepFirstAux l [], sublist_dedupKeepFirstAux l [],
      mem_dedupKeepFirst l, ?_⟩
    cases l with
    | nil => rfl
    | cons a rest => simp [dedupKeepFirst, dedupKeepFirstAux]
  · decide

/-! ### BaseModel guard-clause claims -/

/-- C10: on an untrained model, `predict` and `save_model` raise ValueError
without touching the instance or the artifact files; `load_model` raises
FileNotFoundError whenever one of the three artifact files is missing and
loads nothing in that case. -/
theorem base_model_guard_errors (bm : BaseModelState) (fs : SavedFiles)
    (h : bm.is_trained = false) :
    BaseModel.predict bm =
      (some (.valueError "Le modèle doit être entraîné avant de faire des prédictions"), bm) ∧
    BaseModel.save_model bm fs =
      (some (.valueError "Le modèle doit être entraîné avant d'être sauvegardé"), bm, fs) ∧
    ∀ fs2 : SavedFiles,
      fs2.model_file = none ∨ fs2.scaler_file = none ∨ fs2.features_file = none →
      BaseModel.load_model bm fs2 =
        (some (.fileNotFoundError
          ("Fichiers du modèle non trouvés dans models/saved/" ++ bm.model_name)), bm) := by
  refine ⟨by simp [BaseModel.predict, h], by simp [BaseModel.save_model, h], ?_⟩
  intro fs2 hmiss
  unfold BaseModel.load_model
  rcases hmiss with hm | hm | hm <;>
    rcases hfm : fs2.model_file with _ | m <;>
    rcases hfs : fs2.scaler_file with _ | s <;>
    rcases hff : fs2.features_file with _ | f <;>
    simp_all

/-- Witness for C10: a freshly constructed untrained model and an empty
artifact directory exhibit all three error paths. -/
theorem base_model_guard_errors_witness :
    BaseModel.predict ⟨"rainfall", none, 0, none, false⟩ =
      (some (.valueError "Le modèle doit être entraîné avant de faire des prédictions"),
        ⟨"rainfall", none, 0, none, false⟩) ∧
    BaseModel.save_model ⟨"rainfall", none, 0, none, false⟩ ⟨none, none, none⟩ =
      (some (.valueError "Le modèle doit être entraîné avant d'être sauvegardé"),
        ⟨"rainfall", none, 0, none, false⟩, ⟨none, none, none⟩) ∧
    BaseModel.load_model ⟨"rainfall", none, 0, none, false⟩ ⟨none, none, none⟩ =
      (some (.fileNotFoundError "Fichiers du modèle non trouvés dans models/saved/rainfall"),
        ⟨"rainfall", none, 0, none, false⟩) := by
  obtain ⟨h1, h2, h3⟩ :=
    base_model_guard_errors ⟨"rainfall", none, 0, none, false⟩ ⟨none, none, none⟩ rfl
  exact ⟨h1, h2, h3 ⟨none, none, none⟩ (Or.inl rfl)⟩

/-! ### Loader refresh-policy claims -/

/-- C2 counterexample: running a loader twice on the same cleaned CSV does
NOT yield an identical row count — the loaders never clear the target
table, so the second run doubles the rows (append, not full-refresh). -/
theorem loader_no_truncate_counterexample :
    (load_weather_data [exRow1] none).length = 1 ∧
    (load_weather_data [exRow1] (some (load_weather_data [exRow1] none))).length = 2 ∧
    (load_weather_data [exRow1] (some (load_weather_data [exRow1] none))).length ≠
      (load_weather_data [exRow1] none).length ∧
    load_gee_data [geeRow1] none = .ok [geeRow1] ∧
    load_gee_data [geeRow1] (some [geeRow1]) = .ok [geeRow1, geeRow1] :=
  ⟨rfl, rfl, by decide, rfl, rfl⟩

/-- C2 amended: the loaders create the target table if absent and APPEND
the batch without clearing prior contents (no truncate or drop): the final
table is the prior contents followed by the CSV rows, so re-running adds
the batch again; identical results across runs hold only if the table is
empty or absent before each run. -/
theorem loader_append_policy :
    (∀ csv : List WeatherRow, load_weather_data csv none = csv) ∧
    (∀ csv t : List WeatherRow, load_weather_data csv (some t) = t ++ csv) ∧
    (∀ csv t : List GeeRow, csv ≠ [] → load_gee_data csv (some t) = .ok (t ++ csv)) ∧
    (∀ csv : List WeatherRow, load_weather_data csv (some []) = load_weather_data csv none) := by
  refine ⟨fun csv => rfl, fun csv t => rfl, ?_, fun csv => rfl⟩
  intro csv t h
  cases csv with
  | nil => exact absurd rfl h
  | cons a l => rfl

/-- Witness for C2 (amended): loading a non-empty GEE batch into an
existing table appends it. -/
theorem loader_append_policy_witness :
    load_gee_data [geeRow1] (some [geeRow2]) = .ok ([geeRow2] ++ [geeRow1]) :=
  loader_append_policy.2.2.1 [geeRow1] [geeRow2] (by simp)

/-! ### Training-time scaler claims -/

/-- C3 counterexample: on the dataset [0,0,0,0,10] the scaler fitted by
`BaseModel.train` records mean 2 — the mean of ALL five rows — while no
partition of the preprocessed rows into one held-out row and four training
rows gives the training rows that mean (they average 0 or 5/2): the scaler
was therefore not fitted on the training split only, whichever split the
seeded shuffle picked. -/
theorem train_scaler_leak_counterexample :
    (BaseModel.train splitFirst4 leakX5).scaler.fitData = [0, 0, 0, 0, 10] ∧
    (BaseModel.train splitFirst4 leakX5).scaler.mean = 2 ∧
    ¬ ∃ (x : ℚ) (t : List ℚ), List.Perm (x :: t) (fillnaMean leakX5) ∧
        listMean t = (BaseModel.train splitFirst4 leakX5).scaler.mean := by
  have hX : fillnaMean leakX5 = [0, 0, 0, 0, 10] := rfl
  have hmean : (BaseModel.train splitFirst4 leakX5).scaler.mean = 2 := by
    show listMean (fillnaMean leakX5) = 2
    rw [hX]
    norm_num [listMean]
  refine ⟨rfl, hmean, ?_⟩
  rintro ⟨x, t, hperm, hm⟩
  rw [hmean] at hm
  have hxmem : x ∈ fillnaMean leakX5 := hperm.mem_iff.mp (List.mem_cons_self x t)
  rw [hX] at hxmem
  have hxval : x = 0 ∨ x = 10 := by simpa using hxmem
  have hsum : x + t.sum = 10 := by
    have := hperm.sum_eq
    rw [hX] at this
    simpa using this
  have hlen : t.length = 4 := by
    have := hperm.length_eq
    rw [hX] at this
    simpa using this
  have htsum : t.sum = (8 : ℚ) := by
    have hl : ((t.length : ℚ)) = 4 := by rw [hlen]; norm_num
    rw [listMean, hl] at hm
    have := (div_eq_iff (by norm_num : (4:ℚ) ≠ 0)).mp hm
    linarith
  rcases hxval with h | h <;> rw [h] at hsum <;> linarith

/-- C3 amended: `BaseModel.train` fits the scaler on the ENTIRE
preprocessed dataset before calling `train_test_split`, so the fitted
statistics include the held-out rows: for any split that partitions the
rows, every test row belongs to the data the scaler was fitted on. -/
theorem train_scaler_fitted_on_full_data (split : List ℚ → List ℚ × List ℚ)
    (X : List (Option ℚ))
    (hsplit : ∀ xs : List ℚ, (split xs).1 ++ (split xs).2 = xs) :
    (BaseModel.train split X).scaler.fitData = fillnaMean X ∧
    (BaseModel.train split X).scaler.mean = listMean (fillnaMean X) ∧
    ∀ x ∈ (BaseModel.train split X).testRows,
      x ∈ (BaseModel.train split X).scaler.fitData := by
  refine ⟨rfl, rfl, ?_⟩
  intro x hx
  show x ∈ fillnaMean X
  rw [← hsplit (fillnaMean X)]
  exact List.mem_append_right _ hx

/-- Witness for C3 (amended): with the take-4/drop-1 split on [0,0,0,0,10],
the held-out row 10 is part of the data the scaler was fitted on. -/
theorem train_scaler_fitted_on_full_data_witness :
    (10 : ℚ) ∈ (BaseModel.train splitFirst4 leakX5).scaler.fitData :=
  (train_scaler_fitted_on_full_data splitFirst4 leakX5
    (fun xs => List.take_append_drop 4 xs)).2.2 10
    (show (10 : ℚ) ∈ [(10 : ℚ)] from List.mem_singleton.mpr rfl)

/-! ### Inference feature-vector claims -/

/-- Helper: inserting a fresh key into a Python dict appends it. -/
theorem pyDictInsert_fresh {d : List (String × ℚ)} {k : String} (v : ℚ)
    (h : k ∉ d.map Prod.fst) : pyDictInsert d k v = d ++ [(k, v)] := by
  simp [pyDictInsert, h]

/-- Helper: the selection loop of `prepare_features_for_model`, started
from any dictionary whose keys avoid the remaining feature names, appends
one column per feature name in order (value from `all_features`, else 0)
and records a warning per missing name. -/
theorem select_model_features_loop (af : List (String × ℚ)) :
    ∀ (F : List String) (d : List (String × ℚ)) (w : List String),
      F.Nodup → (∀ n ∈ F, n ∉ d.map Prod.fst) →
      F.foldl
        (fun acc n =>
          match af.lookup n with
          | some v => (pyDictInsert acc.1 n v, acc.2)
          | none => (pyDictInsert acc.1 n 0, acc.2 ++ [n]))
        (d, w) =
      (d ++ F.map fun n => (n, (af.lookup n).getD 0),
       w ++ F.filter fun n => (af.lookup n).isNone) := by
  intro F
  induction F with
  | nil => intro d w _ _; simp
  | cons a rest ih =>
      intro d w hnd hdis
      have ha : a ∉ d.map Prod.fst := hdis a (List.mem_cons_self a rest)
      have hnd' := List.nodup_cons.mp hnd
      have hdis' : ∀ v : ℚ, ∀ n ∈ rest, n ∉ (d ++ [(a, v)]).map Prod.fst := by
        intro v n hn hmem
        rw [List.map_append] at hmem
        rcases List.mem_append.mp hmem with h | h
        · exact hdis n (List.mem_cons_of_mem a hn) h
        · simp only [List.map_cons, List.map_nil, List.mem_singleton] at h
          exact hnd'.1 (h ▸ hn)
      rw [List.foldl_cons]
      cases hl : af.lookup a with
      | some v =>
          simp only [hl]
          rw [pyDictInsert_fresh v ha, ih (d ++ [(a, v)]) w hnd'.2 (hdis' v)]
          simp [hl, List.append_assoc]
      | none =>
          simp only [hl]
          rw [pyDictInsert_fresh 0 ha, ih (d ++ [(a, 0)]) (w ++ [a]) hnd'.2 (hdis' 0)]
          simp [hl, List.append_assoc]

/-- C1: for a trained artifact whose saved feature-name list `F` is
non-empty and duplicate-free, `prepare_features_for_model` returns (never
raising) a one-row frame whose columns are exactly `F` in order (length
|F|), where each name takes its `all_features` value and every name not
derivable from the input dictionary defaults to 0.0 with a logged
warning. -/
theorem prepare_features_feature_order (F : List String)
    (af : List (String × ℚ)) (hne : F ≠ []) (hnd : F.Nodup) :
    prepare_features_for_model (some F) af =
      some (F.map fun n => (n, (af.lookup n).getD 0),
            F.filter fun n => (af.lookup n).isNone) ∧
    (F.map fun n => (n, (af.lookup n).getD 0)).map Prod.fst = F ∧
    (F.map fun n => (n, (af.lookup n).getD 0)).length = F.length ∧
    ∀ n ∈ F, af.lookup n = none →
      (n, 0) ∈ F.map fun n => (n, (af.lookup n).getD 0) := by
  have hempty : F.isEmpty = false := by
    cases F with
    | nil => exact absurd rfl hne
    | cons a l => rfl
  refine ⟨?_, ?_, by simp, ?_⟩
  · show (if F.isEmpty then none else some (select_model_features af F)) = _
    rw [hempty]
    simp only [Bool.false_eq_true, if_false]
    have h := select_model_features_loop af F [] [] hnd (by simp)
    show some (F.foldl _ ([], [])) = _
    rw [h]
    simp
  · rw [List.map_map]
    exact List.map_id' F
  · intro n hn h0
    exact List.mem_map.mpr ⟨n, hn, by rw [h0]; rfl⟩

/-- Witness for C1: with saved features [temperature_2m, mystery_feature]
and an input-derived dictionary providing only temperature_2m = 25, the
frame is [(temperature_2m, 25), (mystery_feature, 0)] with one warning. -/
theorem prepare_features_feature_order_witness :
    prepare_features_for_model (some ["temperature_2m", "mystery_feature"])
        [("temperature_2m", 25)] =
      some ([("temperature_2m", 25), ("mystery_feature", 0)],
            ["mystery_feature"]) := by
  have h := (prepare_features_feature_order ["temperature_2m", "mystery_feature"]
    [("temperature_2m", 25)] (by decide) (by decide)).1
  rw [h]
  rfl

/-! ### Loader error-handling claims -/

/-- C8 counterexample: when the initial `psycopg2.connect` call fails, the
`except` block's `conn.rollback()` and the `finally` block's `cur.close()`
reference unbound locals — the run ends with UnboundLocalError, no
rollback, no cursor close and no connection close, and the original
database error is masked rather than re-raised. -/
theorem loader_connect_failure_counterexample :
    load_weather_run ⟨false, true, true, true⟩ =
      ({ conn_bound := false, cur_bound := false, rolled_back := false
         cursor_closed := false, conn_closed := false }, some .unboundLocalError) ∧
    (load_weather_run ⟨false, true, true, true⟩).2 ≠ some .dbError := by
  exact ⟨rfl, by decide⟩

/-- C8 amended: for database failures occurring AFTER `conn` and `cur` are
bound (table creation, insert, or commit), the loader catches the
exception, rolls the transaction back, closes the cursor and the
connection in the `finally` step and re-raises the original error.  When
the initial connection attempt itself fails, however, the `except` block's
`conn.rollback()` hits an unbound local: nothing is rolled back or closed
and UnboundLocalError masks the original error.  And when `conn.cursor()`
fails, the rollback DOES execute (`conn` is bound), but the `finally`
block's `cur.close()` hits the unbound `cur`, so neither cursor nor
connection is closed and the original error is again masked by
UnboundLocalError. -/
theorem loader_cleanup_after_cursor (b : DbBehavior)
    (hc : b.connect_ok = true) (hk : b.cursor_ok = true)
    (hf : b.execute_ok = false ∨ b.commit_ok = false) :
    load_weather_run b =
      ({ conn_bound := true, cur_bound := true, rolled_back := true
         cursor_closed := true, conn_closed := true }, some .dbError) ∧
    (∀ b2 : DbBehavior, b2.connect_ok = false →
      load_weather_run b2 = (loaderInit, some .unboundLocalError)) ∧
    ∀ b3 : DbBehavior, b3.connect_ok = true → b3.cursor_ok = false →
      load_weather_run b3 =
        ({ conn_bound := true, cur_bound := false, rolled_back := true
           cursor_closed := false, conn_closed := false }, some .unboundLocalError) := by
  refine ⟨?_, ?_, ?_⟩
  · obtain ⟨c1, c2, c3, c4⟩ := b
    replace hc : c1 = true := hc
    replace hk : c2 = true := hk
    subst hc; subst hk
    rcases hf with hf | hf
    · replace hf : c3 = false := hf
      subst hf; cases c4 <;> rfl
    · replace hf : c4 = false := hf
      subst hf; cases c3 <;> rfl
  · intro b2 h2
    obtain ⟨d1, d2, d3, d4⟩ := b2
    replace h2 : d1 = false := h2
    subst h2; rfl
  · intro b3 h3c h3k
    obtain ⟨e1, e2, e3, e4⟩ := b3
    replace h3c : e1 = true := h3c
    replace h3k : e2 = false := h3k
    subst h3c; subst h3k; rfl

/-- Witness for C8 (amended): an insert failure on a healthy connection is
rolled back, fully cleaned up and re-raised. -/
theorem loader_cleanup_after_cursor_witness :
    load_weather_run ⟨true, true, false, true⟩ =
      ({ conn_bound := true, cur_bound := true, rolled_back := true
         cursor_closed := true, conn_closed := true }, some .dbError) :=
  (loader_cleanup_after_cursor ⟨true, true, false, true⟩ rfl rfl (Or.inl rfl)).1

/-! ### Satellite consolidation claims -/

/-- C5: after `transform_gee_data`'s consolidation every (region, date)
pair has exactly one row; every output row is the `.first()` aggregate of
its groupby group (per column, the first non-null value of the group in
input order); and the concrete scenario of two same-day same-region rows
differing only in the temperature column yields exactly one row whose
temperature is the value of whichever row appears first in input order. -/
theorem transform_gee_consolidation (ncols : ℕ) (rows : List GeeRow) :
    (∀ r1 ∈ transform_gee_consolidate ncols rows,
      ∀ r2 ∈ transform_gee_consolidate ncols rows,
        r1.region = r2.region → r1.date = r2.date → r1 = r2) ∧
    (∀ r ∈ transform_gee_consolidate ncols rows,
      r ∈ (rows.filterMap geeKey).map (mkAggGeeRow rows ncols)) ∧
    transform_gee_consolidate 2 [geeRow1, geeRow2] =
      [{ region := some "Dakar", date := some "2024-01-01"
         latitude := some 14, longitude := some 17
         vals := [some 30, some 5] }] ∧
    geeRow1.vals = [some 30, some 5] ∧ geeRow2.vals = [some 31, some 5] := by
  have hmem : ∀ r, r ∈ transform_gee_consolidate ncols rows →
      r ∈ dedupByKeepFirstAux (fun r => (r.region, r.date)) []
        ((sortBy geeKeyLe (dedupKeepFirst (rows.filterMap geeKey))).map
          (mkAggGeeRow rows ncols)) := by
    intro r hr
    simp only [transform_gee_consolidate] at hr
    have hr1 := (mem_sortBy geeRowLe r _).mp hr
    exact (List.mem_filter.mp hr1).1
  refine ⟨?_, ?_, by decide, rfl, rfl⟩
  · intro r1 h1 r2 h2 hR hD
    have m1 := hmem r1 h1
    have m2 := hmem r2 h2
    by_contra hne
    have hpw := pairwise_dedupByKeepFirstAux (fun r : GeeRow => (r.region, r.date))
      ((sortBy geeKeyLe (dedupKeepFirst (rows.filterMap geeKey))).map
        (mkAggGeeRow rows ncols)) []
    have hsym : Symmetric (fun x y : GeeRow => (x.region, x.date) ≠ (y.region, y.date)) :=
      fun x y h he => h he.symm
    exact (List.Pairwise.forall hsym hpw) m1 m2 hne (by rw [hR, hD])
  · intro r hr
    obtain ⟨h1, -⟩ := mem_dedupByKeepFirstAux (fun r : GeeRow => (r.region, r.date))
      ((sortBy geeKeyLe (dedupKeepFirst (rows.filterMap geeKey))).map
        (mkAggGeeRow rows ncols)) [] r (hmem r hr)
    obtain ⟨k, hk, rfl⟩ := List.mem_map.mp h1
    have hk2 := (mem_sortBy geeKeyLe k _).mp hk
    have hk3 := (mem_dedupKeepFirst _ k).mp hk2
    exact List.mem_map.mpr ⟨k, hk3, rfl⟩

/-- Witness for C5: the consolidated Dakar row is the first-non-null
aggregate of its group. -/
theorem transform_gee_consolidation_witness :
    ({ region := some "Dakar", date := some "2024-01-01"
       latitude := some 14, longitude := some 17
       vals := [some 30, some 5] } : GeeRow) ∈
      ([geeRow1, geeRow2].filterMap geeKey).map (mkAggGeeRow [geeRow1, geeRow2] 2) :=
  (transform_gee_consolidation 2 [geeRow1, geeRow2]).2.1 _ (by decide)

end DataBeez
